import Mathlib

/-!
Verification of the jail-startup module (`iocage_lib/ioc_start.py`).

The Python source is shallowly embedded: machine integers become `Nat`
(with explicit masking where the source masks), Python strings become
`String` manipulated through executable helpers that mirror the exact
semantics of the Python operations used by the source (`split`,
`replace`, `upper`, `strip`, substring tests), the host userland version
(a Python float compared against three thresholds) becomes `ℚ`, and the
effectful startup protocol becomes a pure function from a configuration
plus an environment (outcomes of the external commands) to a trace of
observable events.  External collaborators that live outside this file
(`ioc_json`, `ioc_stop`, `ioc_common`, `netifaces`, the commands
themselves) appear only at their interface boundary: their results are
inputs of the model.
-/

/-! ## Python string primitives -/

/-- Python whitespace characters as used by `str.strip` / `str.split()`. -/
def isPySpace (c : Char) : Bool :=
  c == ' ' || c == '\t' || c == '\n' || c == '\r' || c == '\x0b' || c == '\x0c'

/-- `s.strip()`. -/
def pyStrip (s : String) : String :=
  ⟨((s.data.dropWhile isPySpace).reverse.dropWhile isPySpace).reverse⟩

/-- `s.upper()` (ASCII, which is all the source feeds it). -/
def pyUpper (s : String) : String :=
  ⟨s.data.map Char.toUpper⟩

/-- Split a character list at every occurrence of `sep`.  Mirrors Python
`str.split(sep)` for a one-character separator: empty pieces are kept and
the result is never empty. -/
def splitOnChar (sep : Char) : List Char → List (List Char)
  | [] => [[]]
  | c :: rest =>
    let r := splitOnChar sep rest
    if c == sep then [] :: r
    else
      match r with
      | h :: t => (c :: h) :: t
      | [] => [[c]]

/-- `s.split(sep)` for a one-character separator. -/
def strSplit (s : String) (sep : Char) : List String :=
  (splitOnChar sep s.data).map (fun l => ⟨l⟩)

/-- Auxiliary for the Python substring test `pat in s`. -/
def hasSubstrAux (pat : List Char) : List Char → Bool
  | [] => pat.isEmpty
  | c :: rest => pat.isPrefixOf (c :: rest) || hasSubstrAux pat rest

/-- Python `pat in s` (substring containment). -/
def strContains (s pat : String) : Bool :=
  hasSubstrAux pat.data s.data

/-- Fuel-driven core of Python `str.replace` (replace every
non-overlapping occurrence, scanning left to right).  The fuel starts at
the length of the scanned list, which suffices because every step
consumes at least one character. -/
def replaceAux (pat repl : List Char) : List Char → Nat → List Char
  | l, 0 => l
  | [], _ => []
  | c :: rest, fuel + 1 =>
    if pat.isPrefixOf (c :: rest) then
      repl ++ replaceAux pat repl ((c :: rest).drop pat.length) fuel
    else
      c :: replaceAux pat repl rest fuel

/-- Python `s.replace(pat, repl)` for a non-empty `pat` (the source only
replaces the literal `"vnet"`). -/
def pyReplace (s pat repl : String) : String :=
  if pat.data.isEmpty then s else ⟨replaceAux pat.data repl.data s.data s.data.length⟩

/-- Python `sep.join(parts)`. -/
def joinSep (sep : String) : List String → String
  | [] => ""
  | [x] => x
  | x :: rest => x ++ sep ++ joinSep sep rest

/-- Auxiliary for Python `str.split()` (no argument: split on whitespace
runs, dropping empty pieces). -/
def splitWsAux : List Char → List Char → List (List Char)
  | [], acc => if acc.isEmpty then [] else [acc.reverse]
  | c :: rest, acc =>
    if isPySpace c then
      (if acc.isEmpty then splitWsAux rest [] else acc.reverse :: splitWsAux rest [])
    else splitWsAux rest (c :: acc)

/-- Python `s.split()` (whitespace split). -/
def pySplitWs (s : String) : List String :=
  (splitWsAux s.data []).map (fun l => ⟨l⟩)

/-- The first maximal run of digits in `s`: the model of the
`re.search` digit-group lookup, returning `none` exactly when the Python
call returns `None` (so that subscripting it raises `TypeError`). -/
def firstDigitGroup (s : String) : Option String :=
  match s.data.dropWhile (fun c => !c.isDigit) with
  | [] => none
  | l => some ⟨l.takeWhile Char.isDigit⟩

/-- Python `s.rsplit(sep, 1)[0]` for a one-character separator: everything
before the last occurrence of `sep` (the whole string if `sep` is absent). -/
def pyRsplit1Head (s : String) (sep : Char) : String :=
  let parts := strSplit s sep
  if parts.length ≤ 1 then s else joinSep ⟨[sep]⟩ parts.dropLast

/-! ## MacDeriver: `__generate_mac_address_pair` (lines 1090-1168)

The SHAKE-128 digest of the jail UUID and the parent interface MAC bytes
are external inputs of the derivation; everything after them is pure
arithmetic, reproduced here with the exact grouping that Python operator
precedence gives the source expressions. -/

/-- `mac_a_admin_nibble = nic_parent_admin_nibble ^ 0b0100 | 0b0010 & 0b1111`.
Python parses this as `(p ^ 0b0100) | (0b0010 & 0b1111)` because `&`
binds tighter than `^`, which binds tighter than `|`. -/
def mac_a_admin_nibble (nic_parent_admin_nibble : Nat) : Nat :=
  (nic_parent_admin_nibble ^^^ 0b0100) ||| (0b0010 &&& 0b1111)

/-- `mac_b_admin_nibble = nic_parent_admin_nibble ^ 0b1000 | 0b0010 & 0b1111`,
grouped by Python precedence as `(p ^ 0b1000) | (0b0010 & 0b1111)`. -/
def mac_b_admin_nibble (nic_parent_admin_nibble : Nat) : Nat :=
  (nic_parent_admin_nibble ^^^ 0b1000) ||| (0b0010 &&& 0b1111)

/-- `nic_offset = nic_offset & 0b1111 << 4`.  Python parses this as
`nic_offset & (0b1111 << 4)` because `<<` binds tighter than `&`. -/
def nic_offset_masked (nic_offset : Nat) : Nat :=
  nic_offset &&& (0b1111 <<< 4)

/-- First byte of `mac_a_bytes`: `nic_offset | mac_a_admin_nibble`. -/
def mac_a_byte0 (nic_offset nic_parent_admin_nibble : Nat) : Nat :=
  nic_offset_masked nic_offset ||| mac_a_admin_nibble nic_parent_admin_nibble

/-- First byte of `mac_b_bytes`: `nic_offset | mac_b_admin_nibble`. -/
def mac_b_byte0 (nic_offset nic_parent_admin_nibble : Nat) : Nat :=
  nic_offset_masked nic_offset ||| mac_b_admin_nibble nic_parent_admin_nibble

/-- `mac_a_bytes = [nic_offset | mac_a_admin_nibble] + mac_base` where
`mac_base = uuid_hash_bytes + nic_parent_devid_bytes`. -/
def mac_a_bytes (nic_offset nic_parent_admin_nibble : Nat) (mac_base : List Nat) : List Nat :=
  mac_a_byte0 nic_offset nic_parent_admin_nibble :: mac_base

/-- `mac_b_bytes`, analogous to `mac_a_bytes`. -/
def mac_b_bytes (nic_offset nic_parent_admin_nibble : Nat) (mac_base : List Nat) : List Nat :=
  mac_b_byte0 nic_offset nic_parent_admin_nibble :: mac_base

/-- Low nibble (bits 0-3) of a byte. -/
def lowNibble (b : Nat) : Nat := b % 16

/-- High nibble (bits 4-7) of a byte. -/
def highNibble (b : Nat) : Nat := b / 16 % 16

/-- The masked nic offset has an empty low nibble. -/
theorem nic_offset_masked_and_fifteen (n : Nat) : nic_offset_masked n &&& 15 = 0 := by
  show n &&& 240 &&& 15 = 0
  rw [Nat.and_assoc, show (240 &&& 15 : Nat) = 0 from by decide, Nat.and_zero]

/-- Or-ing a value whose low nibble is empty with a value below 16 leaves
exactly that second value in the low nibble. -/
theorem or_lowNibble (a b : Nat) (ha : a &&& 15 = 0) (hb : b < 16) :
    lowNibble (a ||| b) = b := by
  have hmod : (a ||| b) % 16 = (a ||| b) &&& 15 := by
    rw [show (15 : Nat) = 2 ^ 4 - 1 from by norm_num, Nat.and_pow_two_sub_one_eq_mod]
  have hdist : (a ||| b) &&& 15 = (a &&& 15) ||| (b &&& 15) := Nat.and_distrib_right a b 15
  have hb15 : b &&& 15 = b := by
    rw [show (15 : Nat) = 2 ^ 4 - 1 from by norm_num, Nat.and_pow_two_sub_one_eq_mod]
    exact Nat.mod_eq_of_lt (by norm_num at hb ⊢; exact hb)
  unfold lowNibble
  rw [hmod, hdist, ha, hb15, Nat.zero_or]

/-- Claim C4: for every parent administered nibble `p` (0-15) and any nic
offset, the host-side low nibble of MAC byte 0 is `(p XOR 0b0100) OR 0b0010`,
the container-side is `(p XOR 0b1000) OR 0b0010`, the two sides differ from
each other and from `p`, and both have the locally-administered bit set. -/
theorem mac_admin_nibbles_spec (p n : Nat) (hp : p < 16) :
    lowNibble (mac_a_byte0 n p) = (p ^^^ 0b0100) ||| 0b0010 ∧
    lowNibble (mac_b_byte0 n p) = (p ^^^ 0b1000) ||| 0b0010 ∧
    mac_a_admin_nibble p ≠ mac_b_admin_nibble p ∧
    mac_a_admin_nibble p ≠ p ∧
    mac_b_admin_nibble p ≠ p ∧
    mac_a_admin_nibble p &&& 0b0010 = 0b0010 ∧
    mac_b_admin_nibble p &&& 0b0010 = 0b0010 := by
  have ha2 : mac_a_admin_nibble p = (p ^^^ 0b0100) ||| 0b0010 := by
    unfold mac_a_admin_nibble
    rw [show (0b0010 &&& 0b1111 : Nat) = 0b0010 from by decide]
  have hb2 : mac_b_admin_nibble p = (p ^^^ 0b1000) ||| 0b0010 := by
    unfold mac_b_admin_nibble
    rw [show (0b0010 &&& 0b1111 : Nat) = 0b0010 from by decide]
  have hal : mac_a_admin_nibble p < 16 := by
    interval_cases p <;> decide
  have hbl : mac_b_admin_nibble p < 16 := by
    interval_cases p <;> decide
  refine ⟨?_, ?_, ?_, ?_, ?_, ?_, ?_⟩
  · rw [← ha2]
    exact or_lowNibble _ _ (nic_offset_masked_and_fifteen n) hal
  · rw [← hb2]
    exact or_lowNibble _ _ (nic_offset_masked_and_fifteen n) hbl
  · interval_cases p <;> decide
  · interval_cases p <;> decide
  · interval_cases p <;> decide
  · interval_cases p <;> decide
  · interval_cases p <;> decide

/-- Witness for `mac_admin_nibbles_spec` at parent nibble 2 and offset 7. -/
theorem mac_admin_nibbles_spec_witness :
    (2 : Nat) < 16 ∧ lowNibble (mac_a_byte0 7 2) = (2 ^^^ 0b0100) ||| 0b0010 :=
  ⟨by decide, (mac_admin_nibbles_spec 2 7 (by decide)).1⟩

/-- Claim C1 (refuted by the code): for the NIC index 3 (logical name
`vnet3`) and parent administered nibble 2, byte 0 of both generated MAC
addresses has high nibble 0, not 3: Python parses `nic_offset & 0b1111 << 4`
as `nic_offset & 0xF0`, which zeroes out every index in 0-15 instead of
shifting it into the high nibble. -/
theorem mac_high_nibble_is_not_index :
    highNibble (mac_a_byte0 3 2) = 0 ∧
    highNibble (mac_b_byte0 3 2) = 0 ∧
    mac_a_byte0 3 2 = 6 ∧
    mac_b_byte0 3 2 = 10 ∧
    highNibble (mac_a_byte0 3 2) ≠ 3 ∧
    highNibble (mac_b_byte0 3 2) ≠ 3 := by
  decide

/-! ## The jail configuration

One record per `self.conf[...]` property the modelled code reads.  Flags
that the source only tests for Python truthiness are `Bool`; properties
that are interpolated into parameter strings are `String` (`ip_hostname`
is stored as a number in the configuration and is both tested for
truthiness and interpolated, so it is `Nat`).  `rctlProps` stands for the
resource-control slice of the configuration: the pairs
`(k, self.conf[k])` for the resource-control property names `k`
(`iocage_lib.ioc_json.IOCRCTL.types`, defined outside this module). -/

structure Conf where
  dhcp : Bool
  bpf : Bool
  vnet : Bool
  rtsold : Bool
  hostid_strict_check : Bool
  jail_zfs : Bool
  netgraph : Bool
  ip4_addr : String
  ip6_addr : String
  ip4_saddrsel : String
  ip4 : String
  ip6_saddrsel : String
  ip6 : String
  ip_hostname : Nat
  hostid : String
  host_domainname : String
  host_hostname : String
  securelevel : String
  enforce_statfs : String
  children_max : String
  allow_set_hostname : String
  allow_sysvipc : String
  allow_raw_sockets : String
  allow_chflags : String
  allow_mlock : String
  allow_mount : String
  allow_mount_devfs : String
  allow_mount_fusefs : String
  allow_mount_nullfs : String
  allow_mount_procfs : String
  allow_mount_tmpfs : String
  allow_mount_zfs : String
  allow_quotas : String
  allow_socket_af : String
  allow_vmm : String
  mount_devfs : String
  mount_fdescfs : String
  sysvmsg : String
  sysvsem : String
  sysvshm : String
  exec_prestart : String
  exec_clean : String
  exec_timeout : String
  stop_timeout : String
  vnet_interfaces : String
  devfs_ruleset : String
  type : String
  interfaces : String
  defaultrouter : String
  defaultrouter6 : String
  vnet_default_interface : String
  rctlProps : List (String × String)

/-- `wants_dhcp`: the dhcp flag is set, or the token `DHCP` occurs in
the uppercased `ip4_addr` value. -/
def wants_dhcp (c : Conf) : Bool :=
  c.dhcp || strContains (pyUpper c.ip4_addr) "DHCP"

/-! ## Pre-launch validation (lines 156-187)

`prop_missing_msgs` collects the violation messages exactly as the source
appends them; note the `elif` in the dhcp block: the vnet requirement is
only examined when `bpf` is set. -/

/-- The collected `prop_missing_msgs` list. -/
def prop_missing_msgs (uuid : String) (c : Conf) : List String :=
  (if wants_dhcp c then
    (if !c.bpf then [uuid ++ ": dhcp requires bpf!"]
     else if !c.vnet then [uuid ++ ": dhcp requires vnet!"]
     else [])
   else []) ++
  (if strContains c.ip6_addr "accept_rtadv" && !c.vnet then
    [uuid ++ ": accept_rtadv requires vnet!"]
   else []) ++
  (if c.bpf && !c.vnet then [uuid ++ ": bpf requires vnet!"] else [])

/-! ## Host-version feature gating (lines 247-276)

`userland_version` is `float(os.uname()[2].partition("-")[0])`, compared
against the three thresholds 9.3, 10.3 and 12.0.  The comparisons are
collected in a record of three booleans so that the rest of the
parameter assembly is a pure function of their outcome. -/

structure VersionGates where
  le_9_3 : Bool
  le_10_3 : Bool
  lt_12_0 : Bool
  deriving DecidableEq

/-- The three version-threshold tests of the source. -/
def versionGates (userland_version : ℚ) : VersionGates :=
  ⟨decide (userland_version ≤ 9.3),
   decide (userland_version ≤ 10.3),
   decide (userland_version < 12.0)⟩

/-- `tmpfs`: empty for userland 9.3 and below, else the assignment. -/
def tmpfs (g : VersionGates) (c : Conf) : String :=
  if g.le_9_3 then "" else "allow.mount.tmpfs=" ++ c.allow_mount_tmpfs

/-- `fdescfs`: empty for userland 9.3 and below, else the assignment. -/
def fdescfs (g : VersionGates) (c : Conf) : String :=
  if g.le_9_3 then "" else "mount.fdescfs=" ++ c.mount_fdescfs

/-- `_sysvmsg`: empty for userland 10.3 and below, else the assignment. -/
def _sysvmsg (g : VersionGates) (c : Conf) : String :=
  if g.le_10_3 then "" else "sysvmsg=" ++ c.sysvmsg

/-- `_sysvsem`: empty for userland 10.3 and below, else the assignment. -/
def _sysvsem (g : VersionGates) (c : Conf) : String :=
  if g.le_10_3 then "" else "sysvsem=" ++ c.sysvsem

/-- `_sysvshm`: empty for userland 10.3 and below, else the assignment. -/
def _sysvshm (g : VersionGates) (c : Conf) : String :=
  if g.le_10_3 then "" else "sysvshm=" ++ c.sysvshm

/-- `_allow_mlock`: empty below userland 12.0, else the assignment. -/
def _allow_mlock (g : VersionGates) (c : Conf) : String :=
  if g.lt_12_0 then "" else "allow.mlock=" ++ c.allow_mlock

/-- `_allow_mount_fusefs`: empty below userland 12.0, else the assignment. -/
def _allow_mount_fusefs (g : VersionGates) (c : Conf) : String :=
  if g.lt_12_0 then "" else "allow.mount.fusefs=" ++ c.allow_mount_fusefs

/-- `_allow_vmm`: empty below userland 12.0, else the assignment. -/
def _allow_vmm (g : VersionGates) (c : Conf) : String :=
  if g.lt_12_0 then "" else "allow.vmm=" ++ c.allow_vmm

/-! ## The `jail_zfs` overrides (lines 217-221) -/

/-- `allow_mount` forced to `"1"` when `jail_zfs` is set. -/
def effective_allow_mount (c : Conf) : String :=
  if c.jail_zfs then "1" else c.allow_mount

/-- `allow_mount_zfs` forced to `"1"` when `jail_zfs` is set. -/
def effective_allow_mount_zfs (c : Conf) : String :=
  if c.jail_zfs then "1" else c.allow_mount_zfs

/-- `enforce_statfs` lowered from `"2"` to `"1"` when `jail_zfs` is set. -/
def effective_enforce_statfs (c : Conf) : String :=
  if c.jail_zfs then (if c.enforce_statfs == "2" then "1" else c.enforce_statfs)
  else c.enforce_statfs

/-! ## AddressResolver: `check_aliases` (lines 695-731)

The host network state seen through `netifaces` is an input: the default
gateway interface per family and, per host interface, its name and its
addresses of each family (absent families are empty lists, standing for
the `KeyError` the source ignores). -/

structure HostNet where
  gw4iface : Option String
  gw6iface : Option String
  ifaceAddrs : List (String × List String × List String)

/-- Python `s.startswith(prefixes)` with a tuple argument. -/
def startsWithAny (s : String) (ps : List String) : Bool :=
  ps.any (fun p => p.data.isPrefixOf s.data)

/-- `netifaces.interfaces()` of the modelled host. -/
def host_interfaces (h : HostNet) : List String :=
  h.ifaceAddrs.map (fun e => e.1)

/-- The `current_ips` collected by `check_aliases`: addresses of every
host interface not starting with `vnet`, `bridge`, `epair` or `pflog`. -/
def current_ips (h : HostNet) (mode4 : Bool) : List String :=
  ((h.ifaceAddrs.filter
      (fun e => !(startsWithAny e.1 ["vnet", "bridge", "epair", "pflog"]))).map
    (fun e => if mode4 then e.2.1 else e.2.2)).flatten

/-- `check_aliases(ip_addrs, mode)`: if there is no default gateway for
the family, return the list unchanged; otherwise prefix every entry that
carries no explicit `iface|` and is not already a current host address
with the default interface. -/
def check_aliases (h : HostNet) (ip_addrs : String) (mode4 : Bool) : String :=
  match (if mode4 then h.gw4iface else h.gw6iface) with
  | none => ip_addrs
  | some def_iface =>
    let cur := current_ips h mode4
    joinSep "," ((strSplit ip_addrs ',').map (fun ip =>
      if strContains ip "|" then ip
      else if cur.contains ip then ip else def_iface ++ "|" ++ ip))

/-! ## ParameterBuilder (lines 278-405) -/

/-- The `net` list (lines 278-313): static addressing when vnet is off,
otherwise the `vnet` flag plus per-interface attachment directives. -/
def netSection (c : Conf) (h : HostNet) : List String :=
  if !c.vnet then
    (if c.ip4_addr != "none" then ["ip4.addr=" ++ check_aliases h c.ip4_addr true] else []) ++
    (if c.ip6_addr != "none" then ["ip6.addr=" ++ check_aliases h c.ip6_addr false] else []) ++
    ["ip4.saddrsel=" ++ c.ip4_saddrsel,
     "ip4=" ++ c.ip4,
     "ip6.saddrsel=" ++ c.ip6_saddrsel,
     "ip6=" ++ c.ip6]
  else
    "vnet" ::
      (if c.vnet_interfaces != "none" then
        (pySplitWs c.vnet_interfaces).map (fun vnet_int => "vnet.interface=" ++ vnet_int)
       else [])

/-- The `parameters` list (lines 355-370). -/
def parameters (g : VersionGates) (c : Conf) : List String :=
  [fdescfs g c, _allow_mlock g c, tmpfs g c,
   _allow_mount_fusefs g c, _allow_vmm g c,
   "allow.set_hostname=" ++ c.allow_set_hostname,
   "mount.devfs=" ++ c.mount_devfs,
   "allow.raw_sockets=" ++ c.allow_raw_sockets,
   "allow.sysvipc=" ++ c.allow_sysvipc,
   "allow.quotas=" ++ c.allow_quotas,
   "allow.socket_af=" ++ c.allow_socket_af,
   "allow.chflags=" ++ c.allow_chflags,
   "allow.mount=" ++ effective_allow_mount c,
   "allow.mount.devfs=" ++ c.allow_mount_devfs,
   "allow.mount.nullfs=" ++ c.allow_mount_nullfs,
   "allow.mount.procfs=" ++ c.allow_mount_procfs,
   "allow.mount.zfs=" ++ effective_allow_mount_zfs c]

/-- `[x for x in parameters if '1' in x]`: the boolean-like parameters
that survive to the command-level set. -/
def parametersOn (g : VersionGates) (c : Conf) : List String :=
  (parameters g c).filter (fun x => x.data.contains '1')

/-- The trailing fixed block of `start_parameters` (lines 375-397). -/
def tailParameters (g : VersionGates) (c : Conf)
    (uuid path iocroot devfs_ruleset : String) : List String :=
  ["name=ioc-" ++ uuid,
   _sysvmsg g c, _sysvsem g c, _sysvshm g c,
   "host.domainname=" ++ c.host_domainname,
   "host.hostname=" ++ c.host_hostname,
   "path=" ++ path ++ "/root",
   "securelevel=" ++ c.securelevel,
   "host.hostuuid=" ++ uuid,
   "devfs_ruleset=" ++ devfs_ruleset,
   "enforce_statfs=" ++ effective_enforce_statfs c,
   "children.max=" ++ c.children_max,
   "exec.prestart=" ++ c.exec_prestart,
   "exec.clean=" ++ c.exec_clean,
   "exec.timeout=" ++ c.exec_timeout,
   "stop.timeout=" ++ c.stop_timeout,
   "mount.fstab=" ++ path ++ "/fstab",
   "allow.dying",
   "exec.consolelog=" ++ iocroot ++ "/log/ioc-" ++ uuid ++ "-console.log",
   if c.ip_hostname ≠ 0 then "ip_hostname=" ++ toString c.ip_hostname else "",
   "persist"]

/-- `start_parameters` (lines 372-398): net section, the boolean-like
parameters that contain the on token, and the fixed tail, with every
empty string dropped. -/
def start_parameters (g : VersionGates) (c : Conf) (h : HostNet)
    (uuid path iocroot devfs_ruleset : String) : List String :=
  (netSection c h ++ parametersOn g c ++
    tailParameters g c uuid path iocroot devfs_ruleset).filter (fun x => x != "")

/-- The parameter list handed to
`JailRuntimeConfiguration(self.uuid, start_parameters)` (lines 400-405):
the persisted runtime-configuration artifact receives exactly
`start_parameters`, the same list the `jail` utility then reads back
from `/var/run/jail.ioc-UUID.conf`. -/
def runtimeConfigParams (g : VersionGates) (c : Conf) (h : HostNet)
    (uuid path iocroot devfs_ruleset : String) : List String :=
  start_parameters g c h uuid path iocroot devfs_ruleset

/-! ## Concrete instances used by witnesses and counterexamples -/

/-- A representative jail configuration with virtual networking on and
every boolean-like allowance off except hostname setting. -/
def baseConf : Conf where
  dhcp := false
  bpf := false
  vnet := true
  rtsold := false
  hostid_strict_check := false
  jail_zfs := false
  netgraph := false
  ip4_addr := "none"
  ip6_addr := "none"
  ip4_saddrsel := "1"
  ip4 := "new"
  ip6_saddrsel := "1"
  ip6 := "new"
  ip_hostname := 0
  hostid := "00000000-0000-0000-0000-000000000000"
  host_domainname := "none"
  host_hostname := "jail1"
  securelevel := "2"
  enforce_statfs := "2"
  children_max := "0"
  allow_set_hostname := "1"
  allow_sysvipc := "0"
  allow_raw_sockets := "0"
  allow_chflags := "0"
  allow_mlock := "0"
  allow_mount := "0"
  allow_mount_devfs := "0"
  allow_mount_fusefs := "0"
  allow_mount_nullfs := "0"
  allow_mount_procfs := "0"
  allow_mount_tmpfs := "0"
  allow_mount_zfs := "0"
  allow_quotas := "0"
  allow_socket_af := "0"
  allow_vmm := "0"
  mount_devfs := "1"
  mount_fdescfs := "1"
  sysvmsg := "new"
  sysvsem := "new"
  sysvshm := "new"
  exec_prestart := "/usr/bin/true"
  exec_clean := "1"
  exec_timeout := "60"
  stop_timeout := "30"
  vnet_interfaces := "none"
  devfs_ruleset := "4"
  type := "jail"
  interfaces := "vnet0:bridge0"
  defaultrouter := "none"
  defaultrouter6 := "none"
  vnet_default_interface := "none"
  rctlProps := []

/-- A small host network: one physical interface with the IPv4 default
gateway, plus loopback. -/
def hostW : HostNet :=
  ⟨some "em0", none, [("em0", ["10.0.0.5"], []), ("lo0", ["127.0.0.1"], [])]⟩

/-- The gates at userland version 11.0. -/
theorem versionGates_eleven : versionGates 11 = ⟨false, false, true⟩ := by
  have h1 : ¬ ((11 : ℚ) ≤ 9.3) := by norm_num
  have h2 : ¬ ((11 : ℚ) ≤ 10.3) := by norm_num
  have h3 : (11 : ℚ) < 12.0 := by norm_num
  simp [versionGates, h1, h2, h3]

/-- The gates at userland version 12.2. -/
theorem versionGates_12_2 : versionGates 12.2 = ⟨false, false, false⟩ := by
  have h1 : ¬ ((12.2 : ℚ) ≤ 9.3) := by norm_num
  have h2 : ¬ ((12.2 : ℚ) ≤ 10.3) := by norm_num
  have h3 : ¬ ((12.2 : ℚ) < 12.0) := by norm_num
  simp [versionGates, h1, h2, h3]

/-! ## Claim C2 -/

/-- The configuration of claim C2: DHCP requested with both `bpf` and
`vnet` disabled. -/
def c2conf : Conf :=
  { baseConf with dhcp := true, bpf := false, vnet := false }

/-- Claim C2 (refuted by the code): with DHCP enabled and both `bpf` and
`vnet` disabled, the collected violation list contains only the bpf
message; the vnet requirement sits behind an `elif` and is not reported. -/
theorem dhcp_both_violations_not_reported :
    prop_missing_msgs "j1" c2conf = ["j1: dhcp requires bpf!"] ∧
    "j1: dhcp requires vnet!" ∉ prop_missing_msgs "j1" c2conf ∧
    wants_dhcp c2conf = true ∧ c2conf.bpf = false ∧ c2conf.vnet = false := by
  decide

/-- Claim C2 as amended: when DHCP is requested with `bpf` and `vnet`
both disabled (and no router-advertisement request), the pre-launch
validation reports only the bpf violation, because the vnet requirement
is examined only when `bpf` is enabled. -/
theorem dhcp_missing_bpf_reported_alone (uuid : String) (c : Conf)
    (hw : wants_dhcp c = true) (hb : c.bpf = false) (hv : c.vnet = false)
    (hr : strContains c.ip6_addr "accept_rtadv" = false) :
    prop_missing_msgs uuid c = [uuid ++ ": dhcp requires bpf!"] := by
  simp [prop_missing_msgs, hw, hb, hv, hr]

/-- Witness for `dhcp_missing_bpf_reported_alone` on `c2conf`. -/
theorem dhcp_missing_bpf_reported_alone_witness :
    wants_dhcp c2conf = true ∧ c2conf.bpf = false ∧ c2conf.vnet = false ∧
    strContains c2conf.ip6_addr "accept_rtadv" = false ∧
    prop_missing_msgs "j1" c2conf = ["j1: dhcp requires bpf!"] :=
  ⟨by decide, by decide, by decide, by decide,
   dhcp_missing_bpf_reported_alone "j1" c2conf (by decide) (by decide) (by decide) (by decide)⟩

/-! ## Claim C3 -/

/-- Claim C3 (refuted by the code): at userland 12.2, the off-valued
boolean parameter `allow.sysvipc=0` is built into `parameters` but is
absent from the command-level set, and equally absent from the list
written to the persisted runtime-configuration artifact, because the
source hands `JailRuntimeConfiguration` the already-filtered
`start_parameters` list. -/
theorem off_param_absent_from_persisted_list :
    "allow.sysvipc=0" ∈ parameters (versionGates 12.2) baseConf ∧
    "allow.sysvipc=0" ∉
      start_parameters (versionGates 12.2) baseConf hostW "j1" "/iocage/jails/j1" "/iocage" "5" ∧
    "allow.sysvipc=0" ∉
      runtimeConfigParams (versionGates 12.2) baseConf hostW "j1" "/iocage/jails/j1" "/iocage" "5" := by
  rw [versionGates_12_2]
  decide

/-- Claim C3 as amended: boolean-like parameters with the off token are
excluded from the command-level set, and the very same filtered list is
what is written to the persisted runtime-configuration artifact, so the
off-valued parameters are not retained there either. -/
theorem off_params_not_in_command_or_persisted (g : VersionGates) (c : Conf) (h : HostNet)
    (uuid path iocroot devfs_ruleset : String) :
    runtimeConfigParams g c h uuid path iocroot devfs_ruleset =
      start_parameters g c h uuid path iocroot devfs_ruleset ∧
    ∀ x ∈ parameters g c, x.data.contains '1' = false → x ∉ parametersOn g c := by
  refine ⟨rfl, ?_⟩
  intro x _ hx hmem
  unfold parametersOn at hmem
  rw [List.mem_filter, hx] at hmem
  exact absurd hmem.2 (by simp)

/-- Witness for `off_params_not_in_command_or_persisted` at a concrete
configuration and version. -/
theorem off_params_not_in_command_or_persisted_witness :
    "allow.sysvipc=0" ∈ parameters (versionGates 12.2) baseConf ∧
    ("allow.sysvipc=0").data.contains '1' = false ∧
    "allow.sysvipc=0" ∉ parametersOn (versionGates 12.2) baseConf := by
  have hm : "allow.sysvipc=0" ∈ parameters (versionGates 12.2) baseConf := by
    rw [versionGates_12_2]; decide
  exact ⟨hm, by decide,
    (off_params_not_in_command_or_persisted (versionGates 12.2) baseConf hostW
      "j1" "/iocage/jails/j1" "/iocage" "5").2 _ hm (by decide)⟩

/-! ## Claim C6 -/

/-- Claim C6: each version-gated parameter subset is emitted exactly when
the userland version clears its threshold and is the empty string below
it (fdescfs-mount and tmpfs-mount above 9.3; the three System-V IPC
parameters above 10.3; mlock, fusefs-mount and vmm at or above 12.0),
and empty slots never reach the final `start_parameters` list. -/
theorem version_gated_parameter_subsets (v : ℚ) (c : Conf) (h : HostNet)
    (uuid path iocroot devfs_ruleset : String) :
    (v ≤ 9.3 → fdescfs (versionGates v) c = "" ∧ tmpfs (versionGates v) c = "") ∧
    (9.3 < v → fdescfs (versionGates v) c = "mount.fdescfs=" ++ c.mount_fdescfs ∧
      tmpfs (versionGates v) c = "allow.mount.tmpfs=" ++ c.allow_mount_tmpfs) ∧
    (v ≤ 10.3 → _sysvmsg (versionGates v) c = "" ∧ _sysvsem (versionGates v) c = "" ∧
      _sysvshm (versionGates v) c = "") ∧
    (10.3 < v → _sysvmsg (versionGates v) c = "sysvmsg=" ++ c.sysvmsg ∧
      _sysvsem (versionGates v) c = "sysvsem=" ++ c.sysvsem ∧
      _sysvshm (versionGates v) c = "sysvshm=" ++ c.sysvshm) ∧
    (v < 12.0 → _allow_mlock (versionGates v) c = "" ∧
      _allow_mount_fusefs (versionGates v) c = "" ∧ _allow_vmm (versionGates v) c = "") ∧
    (12.0 ≤ v → _allow_mlock (versionGates v) c = "allow.mlock=" ++ c.allow_mlock ∧
      _allow_mount_fusefs (versionGates v) c = "allow.mount.fusefs=" ++ c.allow_mount_fusefs ∧
      _allow_vmm (versionGates v) c = "allow.vmm=" ++ c.allow_vmm) ∧
    (∀ x ∈ start_parameters (versionGates v) c h uuid path iocroot devfs_ruleset, x ≠ "") := by
  refine ⟨?_, ?_, ?_, ?_, ?_, ?_, ?_⟩
  · intro hv
    constructor <;> simp [fdescfs, tmpfs, versionGates, hv]
  · intro hv
    constructor <;> simp [fdescfs, tmpfs, versionGates, not_le.mpr hv]
  · intro hv
    refine ⟨?_, ?_, ?_⟩ <;> simp [_sysvmsg, _sysvsem, _sysvshm, versionGates, hv]
  · intro hv
    refine ⟨?_, ?_, ?_⟩ <;>
      simp [_sysvmsg, _sysvsem, _sysvshm, versionGates, not_le.mpr hv]
  · intro hv
    refine ⟨?_, ?_, ?_⟩ <;>
      simp [_allow_mlock, _allow_mount_fusefs, _allow_vmm, versionGates, hv]
  · intro hv
    refine ⟨?_, ?_, ?_⟩ <;>
      simp [_allow_mlock, _allow_mount_fusefs, _allow_vmm, versionGates, not_lt.mpr hv]
  · intro x hx
    unfold start_parameters at hx
    rw [List.mem_filter] at hx
    have hx2 := hx.2
    rwa [bne_iff_ne] at hx2

/-- Witness for `version_gated_parameter_subsets` at userland 11.0. -/
theorem version_gated_parameter_subsets_witness :
    (9.3 : ℚ) < 11 ∧
    fdescfs (versionGates 11) baseConf = "mount.fdescfs=" ++ baseConf.mount_fdescfs ∧
    tmpfs (versionGates 11) baseConf = "allow.mount.tmpfs=" ++ baseConf.allow_mount_tmpfs :=
  ⟨by norm_num,
   ((version_gated_parameter_subsets 11 baseConf hostW "j1" "/p" "/r" "4").2.1 (by norm_num)).1,
   ((version_gated_parameter_subsets 11 baseConf hostW "j1" "/p" "/r" "4").2.1 (by norm_num)).2⟩

/-! ## NetworkProvisioner (lines 733-1052)

Per-NIC provisioning is modelled as a trace of the calls the source
makes: ensuring the bridge fabric, creating a virtual interface pair
(`start_network_vnet_iface`), and the in-jail `ifconfig`/`route`
invocations of `start_network_vnet_addr`.  External commands are assumed
to succeed (their failures only append to the per-NIC error list); the
uncaught Python exceptions of the source (`TypeError` from a digitless
interface name, `ValueError` from a malformed NIC definition) abort the
run and are modelled by the `crashed` flag. -/

inductive NetEv
  | ensureBridge (netgraph : Bool) (bridge default_if : String)
  | createPair (nic bridge : String)
  | ifcfg (args : List String)
  | route (args : List String)
  deriving DecidableEq

/-- `iface, ip = addr.split("|")`, with the `ValueError` handler that
falls back to `("vnet0", addr)` when the split does not give two parts. -/
def parse_addr_entry (addr : String) : String × String :=
  match strSplit addr '|' with
  | [a, b] => (a, b)
  | _ => ("vnet0", addr)

/-- The in-jail interface name for a configured NIC name (lines 834-839):
`iface.jid` under netgraph, else `epairNb` for `vnetN`, else unchanged. -/
def jail_iface_name (c : Conf) (jid iface : String) : String :=
  if c.netgraph then iface ++ "." ++ jid
  else if strContains iface "vnet" then (pyReplace iface "vnet" "epair") ++ "b"
  else iface

/-- The DHCP spoofing substitution (lines 806-810): when DHCP is wanted
and the address string of the family does not mention `accept_rtadv`,
the whole address list is replaced by one empty-address entry for the
NIC. -/
def substituted_addrs (c : Conf) (nic addrs : String) : String :=
  if wants_dhcp c && !(strContains addrs "accept_rtadv") then nic ++ "|\x27\x27" else addrs

/-- `start_network_vnet_addr` (lines 884-934): the in-jail commands it
issues, or `none` when subscripting the `re.search` digit-group result
raises `TypeError` because the interface name has no digit. -/
def start_network_vnet_addr (c : Conf) (iface ip defaultgw : String) (ipv6 : Bool) :
    Option (List NetEv) :=
  match firstDigitGroup iface with
  | none => none
  | some g =>
    let wants_defaultgw := g == "0" && defaultgw != "none"
    let ifconfigArgs := if ipv6 then [iface, "inet6", ip, "up"] else [iface, ip, "up"]
    let routeArgs : Option (List String) :=
      if wants_defaultgw then
        some (if ipv6 then ["add", "-6", "default", defaultgw]
              else ["add", "default", defaultgw])
      else none
    if !(wants_dhcp c) && ip != "accept_rtadv" then
      some ([NetEv.ifcfg ifconfigArgs] ++
        (match routeArgs with
         | some r => [NetEv.route r]
         | none => []))
    else some []

/-- The two `(addrs, gateway, ipv6)` rows of `net_configs` (lines 746-748). -/
def net_configs (c : Conf) : List (String × String × Bool) :=
  [(c.ip4_addr, c.defaultrouter, false), (c.ip6_addr, c.defaultrouter6, true)]

/-- State threaded through one NIC definition: the visited-interfaces
list `ifaces`, the event trace, and whether an uncaught exception ended
the run. -/
structure ProvState where
  ifaces : List String
  evs : List NetEv
  crashed : Bool

/-- The inner `for addr in addrs.split(',')` loop (lines 815-845):
filter on known NICs, create the pair once per unvisited interface, then
assign the address. -/
def vnet_addr_loop (c : Conf) (jid nic bridge : String) (nics : List String)
    (gw : String) (ipv6 : Bool) : List String → ProvState → ProvState
  | [], st => st
  | addr :: rest, st =>
    if st.crashed then st
    else
      let iface := (parse_addr_entry addr).1
      let ip := (parse_addr_entry addr).2
      if !(nics.contains iface) then vnet_addr_loop c jid nic bridge nics gw ipv6 rest st
      else
        let st1 :=
          if !(st.ifaces.contains iface) then
            { st with ifaces := st.ifaces ++ [iface],
                      evs := st.evs ++ [NetEv.createPair nic bridge] }
          else st
        match start_network_vnet_addr c (jail_iface_name c jid iface) ip gw ipv6 with
        | some cmds =>
          vnet_addr_loop c jid nic bridge nics gw ipv6 rest { st1 with evs := st1.evs ++ cmds }
        | none => { st1 with crashed := true }

/-- The `for addrs, gw, ipv6 in net_configs` loop (lines 805-845),
with the DHCP substitution applied before the `none` check. -/
def family_loop (c : Conf) (jid nic bridge : String) (nics : List String) :
    List (String × String × Bool) → ProvState → ProvState
  | [], st => st
  | fam :: rest, st =>
    if st.crashed then st
    else
      let addrs2 := substituted_addrs c nic fam.1
      if addrs2 == "none" then family_loop c jid nic bridge nics rest st
      else
        family_loop c jid nic bridge nics rest
          (vnet_addr_loop c jid nic bridge nics fam.2.1 fam.2.2 (strSplit addrs2 ',') st)

/-- The `for nic_def in nic_defs` loop (lines 788-851).  The visited set
is re-initialised for every NIC definition, exactly as `ifaces = []`
sits inside this loop in the source; a NIC definition that does not
split into `nic:bridge` raises `ValueError` (uncaught). -/
def nic_def_loop (c : Conf) (jid : String) (nics : List String) :
    List String → List NetEv → Bool → List NetEv × Bool
  | [], evs, crashed => (evs, crashed)
  | nic_def :: rest, evs, crashed =>
    if crashed then (evs, true)
    else
      match strSplit nic_def ':' with
      | [nic, bridge] =>
        let st0 : ProvState :=
          ⟨[], evs ++ [NetEv.ensureBridge c.netgraph bridge c.vnet_default_interface], false⟩
        let st := family_loop c jid nic bridge nics (net_configs c) st0
        nic_def_loop c jid nics rest st.evs st.crashed
      | _ => (evs, true)

/-- `start_network_interface_vnet` (lines 773-851) for one slot of the
`interfaces` property. -/
def start_network_interface_vnet (c : Conf) (jid nic_defs : String) (evs : List NetEv) :
    List NetEv × Bool :=
  let defs := strSplit nic_defs ','
  let nics := defs.map (fun x => (strSplit x ':').headI)
  nic_def_loop c jid nics defs evs false

/-- The `for nic in nics` loop of `start_network` (lines 764-768). -/
def start_network_loop (c : Conf) (jid : String) :
    List String → List NetEv → Bool → List NetEv × Bool
  | [], evs, crashed => (evs, crashed)
  | nic :: rest, evs, crashed =>
    if crashed then (evs, true)
    else
      let r := start_network_interface_vnet c jid nic evs
      start_network_loop c jid rest r.1 r.2

/-- `start_network` (lines 733-771): no-op without vnet, abort when an
explicit `vnet_default_interface` is not a host interface, else one
`start_network_interface_vnet` call per comma-separated slot. -/
def start_network (c : Conf) (h : HostNet) (jid : String) (vnet : Bool) :
    List NetEv × Bool :=
  if !vnet then ([], false)
  else if c.vnet_default_interface != "auto" && c.vnet_default_interface != "none" &&
      !((host_interfaces h).contains c.vnet_default_interface) then
    ([], false)
  else start_network_loop c jid (strSplit c.interfaces ',') [] false

/-- Does this event create the interface pair of NIC `s`? -/
def isCreatePairFor (s : String) : NetEv → Bool
  | NetEv.createPair nic _ => nic == s
  | _ => false

/-- How many times the run created the interface pair of NIC `s`. -/
def creationCount (evs : List NetEv) (s : String) : Nat :=
  (evs.filter (isCreatePairFor s)).length

/-- Does the command list contain a `route` invocation? -/
def hasRouteEv (l : List NetEv) : Bool :=
  l.any (fun e => match e with | NetEv.route _ => true | _ => false)

/-! ## Claim C5: counterexample -/

/-- Configuration with the same NIC declared in two NIC definitions
(two bridges) and referenced by one address entry of each family. -/
def c5dup : Conf :=
  { baseConf with interfaces := "vnet0:bridge0,vnet0:bridge1",
                  ip4_addr := "vnet0|10.1.1.2/24",
                  ip6_addr := "vnet0|abcd::2/64" }

/-- Claim C5 (refuted by the code): `vnet0` is referenced by two address
entries (one per family), yet the provisioning run creates its interface
pair twice, once per NIC definition, because the visited-interfaces set
is re-initialised inside the NIC-definition loop. -/
theorem nic_pair_created_once_per_definition_not_per_run :
    (((strSplit c5dup.ip4_addr ',') ++ strSplit c5dup.ip6_addr ',').filter
        (fun a => (parse_addr_entry a).1 == "vnet0")).length = 2 ∧
    creationCount (start_network c5dup hostW "42" true).1 "vnet0" = 2 := by
  decide

/-! ## Claim C7 -/

/-- Claim C7 (refuted by the code): for the in-jail interface `epair0b`
(first numeric group `0`) and a configured non-`none` gateway, an
`accept_rtadv` address entry produces no route command (and no command
at all), although the claimed condition for issuing one holds. -/
theorem route_skipped_for_accept_rtadv :
    start_network_vnet_addr baseConf "epair0b" "accept_rtadv" "fe80::1" true = some [] ∧
    firstDigitGroup "epair0b" = some "0" ∧
    ("fe80::1" : String) ≠ "none" ∧ wants_dhcp baseConf = false := by
  decide

/-- Claim C7 as amended: `start_network_vnet_addr` issues a default-route
command if and only if the first numeric group of the in-jail interface
name is `0`, the family gateway is not `none`, DHCP is not wanted and
the entry is not `accept_rtadv` (the last two conditions suppress all
command issuing for the entry). -/
theorem default_route_issued_iff (c : Conf) (iface ip defaultgw : String) (ipv6 : Bool)
    (g : String) (hg : firstDigitGroup iface = some g) :
    (start_network_vnet_addr c iface ip defaultgw ipv6).isSome = true ∧
    (hasRouteEv ((start_network_vnet_addr c iface ip defaultgw ipv6).getD []) = true ↔
      (g = "0" ∧ defaultgw ≠ "none" ∧ wants_dhcp c = false ∧ ip ≠ "accept_rtadv")) := by
  unfold start_network_vnet_addr
  rw [hg]
  constructor
  · cases hb : (!(wants_dhcp c) && ip != "accept_rtadv") <;> simp [hb]
  · cases hw : wants_dhcp c
    · by_cases hip : ip = "accept_rtadv"
      · simp [hw, hip, hasRouteEv]
      · by_cases hg0 : g = "0"
        · by_cases hgw : defaultgw = "none"
          · simp [hw, hip, hg0, hgw, hasRouteEv]
          · simp [hw, hip, hg0, hgw, hasRouteEv]
        · simp [hw, hip, hg0, hasRouteEv]
    · simp [hw, hasRouteEv]

/-- Witness for `default_route_issued_iff` on a static IPv4 assignment to
`epair0b` with gateway `10.1.1.1`. -/
theorem default_route_issued_iff_witness :
    firstDigitGroup "epair0b" = some "0" ∧
    (start_network_vnet_addr baseConf "epair0b" "10.1.1.2/24" "10.1.1.1" false).isSome = true ∧
    (hasRouteEv ((start_network_vnet_addr baseConf "epair0b" "10.1.1.2/24"
        "10.1.1.1" false).getD []) = true ↔
      ("0" = "0" ∧ ("10.1.1.1" : String) ≠ "none" ∧ wants_dhcp baseConf = false ∧
        ("10.1.1.2/24" : String) ≠ "accept_rtadv")) :=
  ⟨by decide,
   (default_route_issued_iff baseConf "epair0b" "10.1.1.2/24" "10.1.1.1" false "0" (by decide)).1,
   (default_route_issued_iff baseConf "epair0b" "10.1.1.2/24" "10.1.1.1" false "0" (by decide)).2⟩

/-! ## Claim C5: the dedup bound

The amended statement needs structural facts about `splitOnChar` (pieces
of a split contain no separator) and a potential argument over the
visited-interfaces set. -/

/-- A split never produces the empty list of pieces. -/
theorem splitOnChar_ne_nil (sep : Char) (l : List Char) : splitOnChar sep l ≠ [] := by
  induction l with
  | nil => simp [splitOnChar]
  | cons c rest ih =>
    simp only [splitOnChar]
    cases h : (c == sep) with
    | true => simp
    | false =>
      cases hr : splitOnChar sep rest with
      | nil => exact absurd hr ih
      | cons a t => simp

/-- Pieces produced by a split do not contain the separator. -/
theorem not_mem_of_mem_splitOnChar (sep : Char) :
    ∀ (l p : List Char), p ∈ splitOnChar sep l → sep ∉ p := by
  intro l
  induction l with
  | nil =>
    intro p hp
    simp only [splitOnChar, List.mem_singleton] at hp
    subst hp
    simp
  | cons c rest ih =>
    intro p hp
    simp only [splitOnChar] at hp
    cases h : (c == sep) with
    | true =>
      rw [h] at hp
      simp only [if_true, List.mem_cons] at hp
      rcases hp with rfl | hp
      · simp
      · exact ih p hp
    | false =>
      rw [h] at hp
      simp only [Bool.false_eq_true, if_false] at hp
      cases hr : splitOnChar sep rest with
      | nil => exact absurd hr (splitOnChar_ne_nil sep rest)
      | cons a t =>
        rw [hr] at hp
        simp only [List.mem_cons] at hp
        have hcs : c ≠ sep := by
          intro e
          rw [e] at h
          simp at h
        rcases hp with rfl | hp
        · intro hm
          rcases List.mem_cons.mp hm with e | hm2
          · exact hcs e.symm
          · exact ih a (hr ▸ List.mem_cons_self a t) hm2
        · exact ih p (hr ▸ List.mem_cons_of_mem a hp)

/-- Splitting a list free of the separator returns the list whole. -/
theorem splitOnChar_of_not_mem (sep : Char) :
    ∀ (l : List Char), sep ∉ l → splitOnChar sep l = [l] := by
  intro l
  induction l with
  | nil => intro _; rfl
  | cons c rest ih =>
    intro hm
    have hc : (c == sep) = false := by
      simp only [List.mem_cons, not_or] at hm
      simp [beq_eq_false_iff_ne]
      exact fun e => hm.1 e.symm
    have hrest : sep ∉ rest := by
      simp only [List.mem_cons, not_or] at hm
      exact hm.2
    simp only [splitOnChar, hc, Bool.false_eq_true, if_false, ih hrest]

/-- Pieces of `strSplit` do not contain the separator. -/
theorem mem_strSplit_not_sep (s : String) (sep : Char) (p : String)
    (hp : p ∈ strSplit s sep) : sep ∉ p.data := by
  unfold strSplit at hp
  rw [List.mem_map] at hp
  obtain ⟨l, hl, rfl⟩ := hp
  exact not_mem_of_mem_splitOnChar sep s.data l hl

/-- `strSplit` of a separator-free string is the singleton of the string. -/
theorem strSplit_eq_self (s : String) (sep : Char) (h : sep ∉ s.data) :
    strSplit s sep = [s] := by
  unfold strSplit
  rw [splitOnChar_of_not_mem sep s.data h]
  rfl

/-- `creationCount` distributes over trace concatenation. -/
theorem creationCount_append (a b : List NetEv) (s : String) :
    creationCount (a ++ b) s = creationCount a s + creationCount b s := by
  unfold creationCount
  rw [List.filter_append, List.length_append]

/-- One `createPair` event counts for exactly its NIC name. -/
theorem creationCount_single_create (nic bridge s : String) :
    creationCount [NetEv.createPair nic bridge] s = if s = nic then 1 else 0 := by
  unfold creationCount
  by_cases hs : s = nic
  · subst hs
    simp [List.filter, isCreatePairFor]
  · have hb : (nic == s) = false := by
      rw [beq_eq_false_iff_ne]
      exact fun e => hs e.symm
    simp [List.filter, isCreatePairFor, hb, hs]

/-- A bridge-ensuring event creates no pair. -/
theorem creationCount_single_bridge (ng : Bool) (b d : String) (s : String) :
    creationCount [NetEv.ensureBridge ng b d] s = 0 := by
  simp [creationCount, List.filter, isCreatePairFor]

/-- The in-jail address-assignment commands contain no pair creation. -/
theorem creationCount_vnet_addr_cmds (c : Conf) (iface ip gw : String) (v6 : Bool)
    (l : List NetEv) (hl : start_network_vnet_addr c iface ip gw v6 = some l)
    (s : String) : creationCount l s = 0 := by
  unfold start_network_vnet_addr at hl
  cases hfd : firstDigitGroup iface with
  | none => rw [hfd] at hl; exact absurd hl (by simp)
  | some g =>
    rw [hfd] at hl
    simp only [] at hl
    cases hb : (!(wants_dhcp c) && ip != "accept_rtadv") with
    | false =>
      rw [hb] at hl
      simp only [Bool.false_eq_true, if_false, Option.some.injEq] at hl
      subst hl
      rfl
    | true =>
      rw [hb] at hl
      simp only [if_true, Option.some.injEq] at hl
      subst hl
      cases hroute : (g == "0" && gw != "none") with
      | false =>
        simp only [hroute, Bool.false_eq_true, if_false]
        cases v6 <;> simp [creationCount, List.filter, isCreatePairFor]
      | true =>
        simp only [hroute, if_true]
        cases v6 <;> simp [creationCount, List.filter, isCreatePairFor]

/-- Potential invariant of the inner address loop when the known-NIC list
is the singleton `[nic]`: the creation count plus the pending-creation
token (1 while `nic` is unvisited and `s = nic`) is preserved. -/
theorem vnet_addr_loop_pot (c : Conf) (jid nic bridge gw : String) (ipv6 : Bool) :
    ∀ (L : List String) (st : ProvState) (s : String),
      creationCount (vnet_addr_loop c jid nic bridge [nic] gw ipv6 L st).evs s +
        (if s = nic ∧
            (vnet_addr_loop c jid nic bridge [nic] gw ipv6 L st).ifaces.contains nic = false
         then 1 else 0) =
      creationCount st.evs s +
        (if s = nic ∧ st.ifaces.contains nic = false then 1 else 0) := by
  intro L
  induction L with
  | nil => intro st s; rfl
  | cons addr rest ih =>
    intro st s
    cases hcr : st.crashed with
    | true => simp only [vnet_addr_loop, hcr, if_true]
    | false =>
      simp only [vnet_addr_loop, hcr, Bool.false_eq_true, if_false]
      cases hin : ([nic].contains (parse_addr_entry addr).1) with
      | false =>
        simp only [hin, Bool.not_false, if_true]
        exact ih st s
      | true =>
        have hif : (parse_addr_entry addr).1 = nic := by
          have h1 : (parse_addr_entry addr).1 ∈ [nic] := List.mem_of_elem_eq_true hin
          simpa using h1
        simp only [hin, Bool.not_true, Bool.false_eq_true, if_false]
        cases hv : (st.ifaces.contains (parse_addr_entry addr).1) with
        | true =>
          simp only [hv, Bool.not_true, Bool.false_eq_true, if_false]
          cases hcmd : start_network_vnet_addr c
              (jail_iface_name c jid (parse_addr_entry addr).1)
              (parse_addr_entry addr).2 gw ipv6 with
          | some cmds =>
            dsimp only
            rw [ih _ s]
            simp only [creationCount_append,
              creationCount_vnet_addr_cmds c _ _ _ _ cmds hcmd s]
            omega
          | none =>
            dsimp only
        | false =>
          simp only [hv, Bool.not_false, if_true]
          have hst1c : ((st.ifaces ++ [(parse_addr_entry addr).1]).contains nic) = true := by
            rw [hif]
            exact List.elem_eq_true_of_mem (by simp)
          have hnm : nic ∉ st.ifaces := by
            intro hm
            rw [hif] at hv
            have h2 : st.ifaces.contains nic = true := List.elem_eq_true_of_mem hm
            rw [h2] at hv
            exact absurd hv (by simp)
          cases hcmd : start_network_vnet_addr c
              (jail_iface_name c jid (parse_addr_entry addr).1)
              (parse_addr_entry addr).2 gw ipv6 with
          | some cmds =>
            dsimp only
            rw [ih _ s]
            simp only [hst1c, Bool.true_eq_false, and_false, if_false,
              creationCount_append, creationCount_vnet_addr_cmds c _ _ _ _ cmds hcmd s,
              creationCount_single_create, hv]
            by_cases hs : s = nic <;> simp [hs, hnm]
          | none =>
            dsimp only
            simp only [hst1c, Bool.true_eq_false, and_false, if_false,
              creationCount_append, creationCount_single_create, hv]
            by_cases hs : s = nic <;> simp [hs, hnm]

/-- The potential invariant extends over the per-family loop (the visited
set persists across address families within one NIC definition). -/
theorem family_loop_pot (c : Conf) (jid nic bridge : String) :
    ∀ (fams : List (String × String × Bool)) (st : ProvState) (s : String),
      creationCount (family_loop c jid nic bridge [nic] fams st).evs s +
        (if s = nic ∧ (family_loop c jid nic bridge [nic] fams st).ifaces.contains nic = false
         then 1 else 0) =
      creationCount st.evs s +
        (if s = nic ∧ st.ifaces.contains nic = false then 1 else 0) := by
  intro fams
  induction fams with
  | nil => intro st s; rfl
  | cons fam rest ih =>
    intro st s
    cases hcr : st.crashed with
    | true => simp only [family_loop, hcr, if_true]
    | false =>
      simp only [family_loop, hcr, Bool.false_eq_true, if_false]
      cases hn : (substituted_addrs c nic fam.1 == "none") with
      | true =>
        simp only [hn, if_true]
        exact ih st s
      | false =>
        simp only [hn, Bool.false_eq_true, if_false]
        rw [ih _ s, vnet_addr_loop_pot c jid nic bridge fam.2.1 fam.2.2 _ st s]

/-- Per NIC-definition slot: one `start_network_interface_vnet` call on a
comma-free slot increases the creation count of `s` by at most one, and
only when `s` is the NIC name of the slot. -/
theorem start_network_interface_vnet_bound (c : Conf) (jid piece : String)
    (evs : List NetEv) (hp : ',' ∉ piece.data) (s : String) :
    creationCount (start_network_interface_vnet c jid piece evs).1 s ≤
      creationCount evs s + (if s = (strSplit piece ':').headI then 1 else 0) := by
  unfold start_network_interface_vnet
  rw [strSplit_eq_self piece ',' hp]
  cases hsp : strSplit piece ':' with
  | nil =>
    exfalso
    have := splitOnChar_ne_nil ':' piece.data
    unfold strSplit at hsp
    rcases he : splitOnChar ':' piece.data with _ | ⟨a, t⟩
    · exact this he
    · rw [he] at hsp; simp at hsp
  | cons nic restp =>
    cases restp with
    | nil =>
      simp only [List.map, hsp, List.headI, nic_def_loop, Bool.false_eq_true, if_false]
      exact Nat.le_add_right _ _
    | cons bridge restp2 =>
      cases restp2 with
      | nil =>
        simp only [List.map, hsp, List.headI, nic_def_loop, Bool.false_eq_true, if_false]
        have hpot := family_loop_pot c jid nic bridge (net_configs c)
          ⟨[], evs ++ [NetEv.ensureBridge c.netgraph bridge c.vnet_default_interface], false⟩ s
        simp only [creationCount_append, creationCount_single_bridge] at hpot
        have hle : creationCount (family_loop c jid nic bridge [nic] (net_configs c)
            ⟨[], evs ++ [NetEv.ensureBridge c.netgraph bridge c.vnet_default_interface],
             false⟩).evs s ≤
            creationCount evs s + (if s = nic then 1 else 0) := by
          by_cases hs : s = nic
          · simp only [hs, true_and, if_true] at hpot ⊢
            simp only [show (([] : List String).contains nic) = false from rfl] at hpot
            simp only [if_true] at hpot
            omega
          · simp only [hs, false_and, if_false] at hpot ⊢
            omega
        exact hle
      | cons x restp3 =>
        simp only [List.map, hsp, List.headI, nic_def_loop, Bool.false_eq_true, if_false]
        exact Nat.le_add_right _ _

/-- Over the whole `start_network` NIC loop: with pairwise-distinct slot
NIC names, the creation count of any name grows by at most one. -/
theorem start_network_loop_bound (c : Conf) (jid : String) :
    ∀ (pieces : List String) (evs : List NetEv) (cr : Bool),
      (∀ p ∈ pieces, ',' ∉ p.data) →
      ((pieces.map (fun p => (strSplit p ':').headI)).Nodup) →
      ∀ s, creationCount (start_network_loop c jid pieces evs cr).1 s ≤
        creationCount evs s +
          (if s ∈ pieces.map (fun p => (strSplit p ':').headI) then 1 else 0) := by
  intro pieces
  induction pieces with
  | nil =>
    intro evs cr _ _ s
    simp only [start_network_loop]
    exact Nat.le_add_right _ _
  | cons p rest ih =>
    intro evs cr hps hnd s
    cases cr with
    | true =>
      simp only [start_network_loop, if_true]
      exact Nat.le_add_right _ _
    | false =>
      simp only [start_network_loop, Bool.false_eq_true, if_false]
      have h1 := start_network_interface_vnet_bound c jid p evs (hps p (by simp)) s
      have hnd2 : ((rest.map (fun q => (strSplit q ':').headI)).Nodup) := by
        rw [List.map_cons, List.nodup_cons] at hnd
        exact hnd.2
      have hnmem : (strSplit p ':').headI ∉ rest.map (fun q => (strSplit q ':').headI) := by
        rw [List.map_cons, List.nodup_cons] at hnd
        exact hnd.1
      have h2 := ih (start_network_interface_vnet c jid p evs).1
        (start_network_interface_vnet c jid p evs).2
        (fun q hq => hps q (List.mem_cons_of_mem _ hq)) hnd2 s
      rw [List.map_cons]
      by_cases hs : s = (strSplit p ':').headI
      · subst hs
        rw [if_pos (List.mem_cons_self _ _)]
        rw [if_pos rfl] at h1
        rw [if_neg hnmem] at h2
        omega
      · simp only [hs, if_false] at h1
        by_cases hmem : s ∈ rest.map (fun q => (strSplit q ':').headI)
        · have hmem2 : s ∈ (strSplit p ':').headI :: rest.map (fun q => (strSplit q ':').headI) :=
            List.mem_cons_of_mem _ hmem
          simp only [if_pos hmem] at h2
          simp only [if_pos hmem2]
          omega
        · have hmem2 : s ∉ (strSplit p ':').headI :: rest.map (fun q => (strSplit q ':').headI) := by
            intro hx
            rcases List.mem_cons.mp hx with e | hx2
            · exact hs e
            · exact hmem hx2
          simp only [if_neg hmem] at h2
          simp only [if_neg hmem2]
          omega

/-- Claim C5 as amended: the visited-interfaces set deduplicates only
within one NIC definition, so the pair-creation step runs at most once
per NIC name for the whole run provided no NIC name is repeated across
the comma-separated NIC definitions; a repeated definition (see the
counterexample) re-runs the creation once per occurrence. -/
theorem nic_pair_created_at_most_once_per_name (c : Conf) (h : HostNet) (jid : String)
    (vnet : Bool)
    (hnodup : (((strSplit c.interfaces ',').map (fun p => (strSplit p ':').headI)).Nodup)) :
    ∀ s, creationCount (start_network c h jid vnet).1 s ≤ 1 := by
  intro s
  unfold start_network
  cases hvn : vnet with
  | false => simp [creationCount]
  | true =>
    simp only [Bool.not_true, Bool.false_eq_true, if_false]
    cases hval : (c.vnet_default_interface != "auto" && c.vnet_default_interface != "none" &&
        !((host_interfaces h).contains c.vnet_default_interface)) with
    | true => simp [hval, creationCount]
    | false =>
      simp only [hval, Bool.false_eq_true, if_false]
      have hb := start_network_loop_bound c jid (strSplit c.interfaces ',') [] false
        (fun p hp => mem_strSplit_not_sep c.interfaces ',' p hp) hnodup s
      have h0 : creationCount ([] : List NetEv) s = 0 := rfl
      rw [h0] at hb
      by_cases hm : s ∈ (strSplit c.interfaces ',').map (fun p => (strSplit p ':').headI)
      · rw [if_pos hm] at hb; omega
      · rw [if_neg hm] at hb; omega

/-- The distinct-NIC counterpart of the C5 counterexample: `vnet0` and
`vnet1` each declared once, `vnet0` referenced by one address entry of
each family. -/
def c5ok : Conf :=
  { baseConf with interfaces := "vnet0:bridge0,vnet1:bridge1",
                  ip4_addr := "vnet0|10.1.1.2/24",
                  ip6_addr := "vnet0|abcd::2/64" }

/-- Witness for `nic_pair_created_at_most_once_per_name` on `c5ok`. -/
theorem nic_pair_created_at_most_once_per_name_witness :
    (((strSplit c5ok.interfaces ',').map (fun p => (strSplit p ':').headI)).Nodup) ∧
    creationCount (start_network c5ok hostW "42" true).1 "vnet0" ≤ 1 :=
  ⟨by decide, nic_pair_created_at_most_once_per_name c5ok hostW "42" true (by decide) "vnet0"⟩

/-! ## Orchestrator: `__start_jail__` (lines 78-693)

The protocol is modelled as a pure function from the configuration, an
environment (the outcomes of the external collaborators: the
already-running query, the hostid file, the `jail` invocation, the
network stage, the hooks, the DHCP readback and the resource-control
batch), the version gates and host network state, to a trace of
observable events plus whether the protocol terminated by raising.
`logit` with level EXCEPTION raises; other levels return.  Stages that
only run external commands whose failures the source ignores (procfs
and linprocfs mounts, the dev/log symlink, jail_zfs dataset setup and
mounts, resolv.conf and localtime generation) emit no event here and
are assumed to succeed. -/

inductive LogLevel
  | DEBUG
  | INFO
  | WARNING
  | ERROR
  | EXCEPTION
  deriving DecidableEq

inductive SEv
  | log (level : LogLevel) (message : String)
  | writeRuntime (params : List String)
  | launch
  | stop
  | setLastStarted
  deriving DecidableEq

structure Env where
  running : Bool
  hostidFile : String
  startOK : Bool
  startStderr : String
  vnetErrs : List String
  execStartError : Option String
  poststartError : String
  dhcpAddr : Option String
  rctlFailed : List String

structure Outcome where
  events : List SEv
  raised : Bool
  deriving DecidableEq

/-- The `ValueError` lurking in `__check_dhcp__` (lines 1192-1203): with
the dhcp flag off but `DHCP` in `ip4_addr`, every entry must split into
`nic|addr` after the cidr suffix is removed. -/
def check_dhcp_value_error (c : Conf) : Bool :=
  if c.dhcp then false
  else (strSplit c.ip4_addr ',').any
    (fun ip4 => (strSplit (pyRsplit1Head ip4 '/') '|').length != 2)

/-- The resource-control tail and the `last_started` write (lines
659-693): non-empty selected rule set logs the attempt, a rejected batch
result is logged at INFO level, and the protocol completes. -/
def rctl_and_finish (c : Conf) (e : Env) (evs : List SEv) : Outcome :=
  let rctl_keys := c.rctlProps.filter (fun kv => kv.2 != "off")
  let evs2 := evs ++
    (if !rctl_keys.isEmpty then
      [SEv.log LogLevel.INFO "  + Setting RCTL props"] ++
      (if !e.rctlFailed.isEmpty then
        [SEv.log LogLevel.INFO
          ("  + Failed to set " ++ joinSep ", " e.rctlFailed ++ " RCTL props")]
       else [])
     else [])
  ⟨evs2 ++ [SEv.setLastStarted], false⟩

/-- The startup protocol `__start_jail__`. -/
def startJail (c : Conf) (e : Env) (g : VersionGates) (h : HostNet)
    (uuid path iocroot devfs_ruleset : String) : Outcome :=
  if e.running then
    ⟨[SEv.log LogLevel.EXCEPTION (uuid ++ " is already running!")], true⟩
  else if c.hostid_strict_check && (c.hostid != pyStrip e.hostidFile) then
    ⟨[SEv.log LogLevel.ERROR
        (uuid ++ " hostid is not matching and \x27hostid_strict_check\x27 is on!" ++
         " - Not starting jail")], false⟩
  else if !(prop_missing_msgs uuid c).isEmpty then
    ⟨[SEv.log LogLevel.EXCEPTION (joinSep "\n" (prop_missing_msgs uuid c))], true⟩
  else if wants_dhcp c && check_dhcp_value_error c then
    ⟨[], true⟩
  else if c.rtsold && !(strContains c.ip6_addr "accept_rtadv") then
    ⟨[SEv.log LogLevel.EXCEPTION "Must set at least one ip6_addr to accept_rtadv!"], true⟩
  else
    let ev1 : List SEv := [SEv.log LogLevel.INFO ("* Starting " ++ uuid)]
    let ev2 := ev1 ++
      (if wants_dhcp c && (c.type != "pluginv2") && (c.devfs_ruleset != "4") then
        [SEv.log LogLevel.WARNING
          ("  " ++ uuid ++ " is not using the devfs_ruleset of 4, not generating a" ++
           " ruleset for the jail, DHCP may not work.")]
       else [])
    let ev3 := ev2 ++
      [SEv.writeRuntime (start_parameters g c h uuid path iocroot devfs_ruleset), SEv.launch]
    if !e.startOK then
      ⟨ev3 ++ [SEv.log LogLevel.ERROR "  + Start FAILED",
               SEv.log LogLevel.EXCEPTION e.startStderr], true⟩
    else
      let ev4 := ev3 ++ [SEv.log LogLevel.INFO "  + Started OK",
                         SEv.log LogLevel.INFO ("  + Using devfs_ruleset: " ++ devfs_ruleset)]
      let ev5 := ev4 ++
        (if c.vnet && e.vnetErrs.isEmpty then
          [SEv.log LogLevel.INFO "  + Configuring VNET OK"]
         else [])
      if c.vnet && !e.vnetErrs.isEmpty then
        ⟨ev5 ++ [SEv.log LogLevel.ERROR "  + Configuring VNET FAILED"] ++
          e.vnetErrs.map (fun verr => SEv.log LogLevel.ERROR ("  " ++ verr)) ++
          [SEv.stop,
           SEv.log LogLevel.EXCEPTION ("\nStopped " ++ uuid ++ " due to VNET failure")], true⟩
      else
        match e.execStartError with
        | some err =>
          ⟨ev5 ++ [SEv.stop,
            SEv.log LogLevel.EXCEPTION
              ("  + Starting services FAILED\nERROR:\n" ++ err ++
               "\n\nRefusing to start " ++ uuid ++ ": exec_start failed")], true⟩
        | none =>
          let ev6 := ev5 ++ [SEv.log LogLevel.INFO "  + Starting services OK"]
          if e.poststartError != "" then
            ⟨ev6 ++ [SEv.stop,
              SEv.log LogLevel.EXCEPTION
                ("  + Executing exec_poststart FAILED\nERROR:\n" ++ e.poststartError ++
                 "\n\nRefusing to start " ++ uuid ++ ": exec_poststart failed")], true⟩
          else
            let ev7 := ev6 ++ [SEv.log LogLevel.INFO "  + Executing poststart OK"]
            if e.vnetErrs.isEmpty && c.vnet && wants_dhcp c then
              match e.dhcpAddr with
              | some addrText =>
                if strContains addrText "0.0.0.0" then
                  ⟨ev7 ++ [SEv.stop,
                    SEv.log LogLevel.EXCEPTION
                      ("  + Acquiring DHCP address: FAILED, address received: " ++ addrText ++
                       "\n\nStopped " ++ uuid ++ " due to DHCP failure")], true⟩
                else
                  rctl_and_finish c e
                    (ev7 ++ [SEv.log LogLevel.INFO ("  + DHCP Address: " ++ addrText)])
              | none =>
                ⟨ev7 ++ [SEv.stop,
                  SEv.log LogLevel.EXCEPTION
                    ("  + Acquiring DHCP address: FAILED, address received: ERROR," ++
                     " check jail logs\n\nStopped " ++ uuid ++ " due to DHCP failure")], true⟩
            else
              rctl_and_finish c e ev7

/-- Is this a forced-stop invocation? -/
def isStopEv : SEv → Bool
  | SEv.stop => true
  | _ => false

/-- Number of forced-stop invocations in a trace. -/
def stopCount (l : List SEv) : Nat :=
  (l.filter isStopEv).length

/-- Is this a WARNING-level log entry? -/
def isWarnLog : SEv → Bool
  | SEv.log LogLevel.WARNING _ => true
  | _ => false

/-! ## Claim C9 -/

/-- Claim C9: with `hostid_strict_check` on and a configured hostid that
differs from the stripped `/etc/hostid` content, the protocol emits one
ERROR log and returns normally: nothing is launched, nothing is stopped,
and no exception propagates. -/
theorem hostid_mismatch_logs_error_and_returns (c : Conf) (e : Env) (g : VersionGates)
    (h : HostNet) (uuid path iocroot dr : String)
    (hr : e.running = false)
    (hs : c.hostid_strict_check = true)
    (hm : c.hostid ≠ pyStrip e.hostidFile) :
    startJail c e g h uuid path iocroot dr =
      ⟨[SEv.log LogLevel.ERROR
          (uuid ++ " hostid is not matching and \x27hostid_strict_check\x27 is on!" ++
           " - Not starting jail")], false⟩ ∧
    SEv.launch ∉ (startJail c e g h uuid path iocroot dr).events ∧
    SEv.stop ∉ (startJail c e g h uuid path iocroot dr).events ∧
    (startJail c e g h uuid path iocroot dr).raised = false := by
  have hcond : (c.hostid_strict_check && (c.hostid != pyStrip e.hostidFile)) = true := by
    rw [hs]
    simp [bne_iff_ne, hm]
  have hsj : startJail c e g h uuid path iocroot dr =
      ⟨[SEv.log LogLevel.ERROR
          (uuid ++ " hostid is not matching and \x27hostid_strict_check\x27 is on!" ++
           " - Not starting jail")], false⟩ := by
    unfold startJail
    simp [hr, hcond]
  refine ⟨hsj, ?_, ?_, ?_⟩ <;> rw [hsj] <;> simp

/-- The configuration and environment of the C9 witness. -/
def c9conf : Conf :=
  { baseConf with hostid_strict_check := true,
                  hostid := "9bbba063-95a6-4395-ad66-ae6b394d2132" }

/-- Environment of the C9 witness: a hostid file with different content. -/
def c9env : Env :=
  { running := false,
    hostidFile := "d3b07384-d9a0-4af8-8e7a-2f5a1ee3c2b7\n",
    startOK := true,
    startStderr := "",
    vnetErrs := [],
    execStartError := none,
    poststartError := "",
    dhcpAddr := none,
    rctlFailed := [] }

/-- Witness for `hostid_mismatch_logs_error_and_returns`. -/
theorem hostid_mismatch_logs_error_and_returns_witness :
    c9env.running = false ∧ c9conf.hostid_strict_check = true ∧
    c9conf.hostid ≠ pyStrip c9env.hostidFile ∧
    (startJail c9conf c9env ⟨false, false, true⟩ hostW "j1" "/p" "/r" "4").raised = false :=
  ⟨rfl, rfl, by decide,
   (hostid_mismatch_logs_error_and_returns c9conf c9env ⟨false, false, true⟩ hostW
     "j1" "/p" "/r" "4" rfl rfl (by decide)).2.2.2⟩

/-! ## Claim C10 -/

/-- Claim C10: DHCP verification fails (one forced stop, fatal raise)
whenever the literal `0.0.0.0` occurs anywhere as a substring of the
formatted `address/cidr` text read back from the first interface. -/
theorem dhcp_verification_fails_on_substring (c : Conf) (e : Env) (g : VersionGates)
    (h : HostNet) (uuid path iocroot dr : String) (t : String)
    (hr : e.running = false)
    (hh : (c.hostid_strict_check && (c.hostid != pyStrip e.hostidFile)) = false)
    (hmsgs : prop_missing_msgs uuid c = [])
    (hdh : c.dhcp = true)
    (hrt : c.rtsold = false)
    (hso : e.startOK = true)
    (hvn : c.vnet = true)
    (hve : e.vnetErrs = [])
    (hee : e.execStartError = none)
    (hpe : e.poststartError = "")
    (hda : e.dhcpAddr = some t)
    (hsub : strContains t "0.0.0.0" = true) :
    stopCount (startJail c e g h uuid path iocroot dr).events = 1 ∧
    (startJail c e g h uuid path iocroot dr).raised = true := by
  have hwd : wants_dhcp c = true := by simp [wants_dhcp, hdh]
  have hcde : check_dhcp_value_error c = false := by simp [check_dhcp_value_error, hdh]
  cases hwarn : ((c.type != "pluginv2") && (c.devfs_ruleset != "4")) with
  | true =>
    constructor <;>
      simp [startJail, hr, hh, hmsgs, hwd, hcde, hrt, hso, hvn, hve, hee, hpe, hda, hsub,
        hwarn, stopCount, isStopEv, List.filter_append, List.filter]
  | false =>
    constructor <;>
      simp [startJail, hr, hh, hmsgs, hwd, hcde, hrt, hso, hvn, hve, hee, hpe, hda, hsub,
        hwarn, stopCount, isStopEv, List.filter_append, List.filter]

/-- Configuration of the C10 witness: DHCP with bpf and vnet enabled. -/
def c10conf : Conf :=
  { baseConf with dhcp := true, bpf := true, vnet := true }

/-- Environment of the C10 witness: every stage succeeds and the
readback text is the perfectly valid lease `10.0.0.0/8`. -/
def c10env : Env :=
  { running := false,
    hostidFile := "",
    startOK := true,
    startStderr := "",
    vnetErrs := [],
    execStartError := none,
    poststartError := "",
    dhcpAddr := some "10.0.0.0/8",
    rctlFailed := [] }

/-- Witness for `dhcp_verification_fails_on_substring`: the non-zero
lease `10.0.0.0/8` contains `0.0.0.0` as a substring and is treated as a
DHCP failure (one forced stop, fatal raise). -/
theorem dhcp_verification_fails_on_substring_witness :
    strContains "10.0.0.0/8" "0.0.0.0" = true ∧
    stopCount (startJail c10conf c10env ⟨false, false, true⟩ hostW
      "j1" "/p" "/r" "4").events = 1 ∧
    (startJail c10conf c10env ⟨false, false, true⟩ hostW "j1" "/p" "/r" "4").raised = true :=
  ⟨by decide,
   (dhcp_verification_fails_on_substring c10conf c10env ⟨false, false, true⟩ hostW
     "j1" "/p" "/r" "4" "10.0.0.0/8" rfl (by decide) (by decide) rfl rfl rfl rfl rfl rfl rfl
     rfl (by decide)).1,
   (dhcp_verification_fails_on_substring c10conf c10env ⟨false, false, true⟩ hostW
     "j1" "/p" "/r" "4" "10.0.0.0/8" rfl (by decide) (by decide) rfl rfl rfl rfl rfl rfl rfl
     rfl (by decide)).2⟩

/-! ## Claim C8 -/

/-- Claim C8 (refuted in one respect by the code): when the rule applier
rejects rules at a concrete configuration, the failure entry is logged
at INFO level and the whole trace contains no WARNING-level entry at
all, while the claim announces a warning-level log entry. -/
theorem rctl_rejection_logged_at_info_level :
    (startJail { baseConf with rctlProps := [("cputime", "100")] }
      { running := false, hostidFile := "", startOK := true, startStderr := "",
        vnetErrs := [], execStartError := none, poststartError := "",
        dhcpAddr := none, rctlFailed := ["cputime"] }
      ⟨false, false, true⟩ hostW "j1" "/p" "/r" "4").raised = false ∧
    stopCount (startJail { baseConf with rctlProps := [("cputime", "100")] }
      { running := false, hostidFile := "", startOK := true, startStderr := "",
        vnetErrs := [], execStartError := none, poststartError := "",
        dhcpAddr := none, rctlFailed := ["cputime"] }
      ⟨false, false, true⟩ hostW "j1" "/p" "/r" "4").events = 0 ∧
    SEv.log LogLevel.INFO "  + Failed to set cputime RCTL props" ∈
      (startJail { baseConf with rctlProps := [("cputime", "100")] }
        { running := false, hostidFile := "", startOK := true, startStderr := "",
          vnetErrs := [], execStartError := none, poststartError := "",
          dhcpAddr := none, rctlFailed := ["cputime"] }
        ⟨false, false, true⟩ hostW "j1" "/p" "/r" "4").events ∧
    ((startJail { baseConf with rctlProps := [("cputime", "100")] }
      { running := false, hostidFile := "", startOK := true, startStderr := "",
        vnetErrs := [], execStartError := none, poststartError := "",
        dhcpAddr := none, rctlFailed := ["cputime"] }
      ⟨false, false, true⟩ hostW "j1" "/p" "/r" "4").events.filter isWarnLog) = [] := by
  decide

/-- Claim C8 as amended: a post-start hook failure after launch performs
exactly one forced stop and raises; a rejected resource-control batch
performs no stop, logs the failure at INFO level (not WARNING), and the
protocol runs to completion (the `last_started` write happens). -/
theorem poststart_failure_stops_once_rctl_rejection_never_stops :
    (∀ (c : Conf) (e : Env) (g : VersionGates) (h : HostNet) (uuid path iocroot dr : String),
      e.running = false →
      (c.hostid_strict_check && (c.hostid != pyStrip e.hostidFile)) = false →
      prop_missing_msgs uuid c = [] →
      wants_dhcp c = false →
      c.rtsold = false →
      e.startOK = true →
      e.vnetErrs = [] →
      e.execStartError = none →
      e.poststartError ≠ "" →
      stopCount (startJail c e g h uuid path iocroot dr).events = 1 ∧
      (startJail c e g h uuid path iocroot dr).raised = true) ∧
    (∀ (c : Conf) (e : Env) (g : VersionGates) (h : HostNet) (uuid path iocroot dr : String),
      e.running = false →
      (c.hostid_strict_check && (c.hostid != pyStrip e.hostidFile)) = false →
      prop_missing_msgs uuid c = [] →
      wants_dhcp c = false →
      c.rtsold = false →
      e.startOK = true →
      e.vnetErrs = [] →
      e.execStartError = none →
      e.poststartError = "" →
      (c.rctlProps.filter (fun kv => kv.2 != "off")) ≠ [] →
      e.rctlFailed ≠ [] →
      stopCount (startJail c e g h uuid path iocroot dr).events = 0 ∧
      (startJail c e g h uuid path iocroot dr).raised = false ∧
      SEv.log LogLevel.INFO
          ("  + Failed to set " ++ joinSep ", " e.rctlFailed ++ " RCTL props") ∈
        (startJail c e g h uuid path iocroot dr).events ∧
      SEv.setLastStarted ∈ (startJail c e g h uuid path iocroot dr).events) := by
  constructor
  · intro c e g h uuid path iocroot dr hr hh hmsgs hwd hrt hso hve hee hpe
    have hpe2 : (e.poststartError != "") = true := by
      rw [bne_iff_ne]
      exact hpe
    cases hcv : c.vnet with
    | true =>
      constructor <;>
        simp [startJail, hr, hh, hmsgs, hwd, hrt, hso, hve, hee, hpe2, hcv,
          stopCount, isStopEv, List.filter_append, List.filter]
    | false =>
      constructor <;>
        simp [startJail, hr, hh, hmsgs, hwd, hrt, hso, hve, hee, hpe2, hcv,
          stopCount, isStopEv, List.filter_append, List.filter]
  · intro c e g h uuid path iocroot dr hr hh hmsgs hwd hrt hso hve hee hpe hrk hrf
    have hpe2 : (e.poststartError != "") = false := by
      rw [hpe]
      decide
    have hrk2 : (c.rctlProps.filter (fun kv => kv.2 != "off")).isEmpty = false := by
      cases hfe : (c.rctlProps.filter (fun kv => kv.2 != "off")) with
      | nil => exact absurd hfe hrk
      | cons a t => rfl
    have hrf2 : e.rctlFailed.isEmpty = false := by
      cases hfe : e.rctlFailed with
      | nil => exact absurd hfe hrf
      | cons a t => rfl
    cases hcv : c.vnet with
    | true =>
      refine ⟨?_, ?_, ?_, ?_⟩ <;>
        simp [startJail, rctl_and_finish, hr, hh, hmsgs, hwd, hrt, hso, hve, hee, hpe2,
          hrk2, hrf2, hcv, stopCount, isStopEv, List.filter_append, List.filter]
    | false =>
      refine ⟨?_, ?_, ?_, ?_⟩ <;>
        simp [startJail, rctl_and_finish, hr, hh, hmsgs, hwd, hrt, hso, hve, hee, hpe2,
          hrk2, hrf2, hcv, stopCount, isStopEv, List.filter_append, List.filter]

/-- Environment of the C8 witness, hook-failure side. -/
def c8aEnv : Env :=
  { running := false, hostidFile := "", startOK := true, startStderr := "",
    vnetErrs := [], execStartError := none,
    poststartError := "exec_poststart exited 1", dhcpAddr := none, rctlFailed := [] }

/-- Configuration of the C8 witness, rule-rejection side. -/
def c8bConf : Conf :=
  { baseConf with rctlProps := [("cputime", "100")] }

/-- Environment of the C8 witness, rule-rejection side. -/
def c8bEnv : Env :=
  { running := false, hostidFile := "", startOK := true, startStderr := "",
    vnetErrs := [], execStartError := none,
    poststartError := "", dhcpAddr := none, rctlFailed := ["cputime"] }

/-- Witness for `poststart_failure_stops_once_rctl_rejection_never_stops`
on both sides. -/
theorem poststart_failure_stops_once_rctl_rejection_never_stops_witness :
    (c8aEnv.poststartError ≠ "" ∧
     stopCount (startJail baseConf c8aEnv ⟨false, false, true⟩ hostW
       "j1" "/p" "/r" "4").events = 1 ∧
     (startJail baseConf c8aEnv ⟨false, false, true⟩ hostW "j1" "/p" "/r" "4").raised = true) ∧
    (c8bEnv.rctlFailed ≠ [] ∧
     stopCount (startJail c8bConf c8bEnv ⟨false, false, true⟩ hostW
       "j1" "/p" "/r" "4").events = 0 ∧
     (startJail c8bConf c8bEnv ⟨false, false, true⟩ hostW "j1" "/p" "/r" "4").raised = false) :=
  ⟨⟨by decide,
    (poststart_failure_stops_once_rctl_rejection_never_stops.1 baseConf c8aEnv
      ⟨false, false, true⟩ hostW "j1" "/p" "/r" "4" rfl (by decide) (by decide) (by decide)
      rfl rfl rfl rfl (by decide)).1,
    (poststart_failure_stops_once_rctl_rejection_never_stops.1 baseConf c8aEnv
      ⟨false, false, true⟩ hostW "j1" "/p" "/r" "4" rfl (by decide) (by decide) (by decide)
      rfl rfl rfl rfl (by decide)).2⟩,
   ⟨by decide,
    (poststart_failure_stops_once_rctl_rejection_never_stops.2 c8bConf c8bEnv
      ⟨false, false, true⟩ hostW "j1" "/p" "/r" "4" rfl (by decide) (by decide) (by decide)
      rfl rfl rfl rfl rfl (by decide) (by decide)).1,
    (poststart_failure_stops_once_rctl_rejection_never_stops.2 c8bConf c8bEnv
      ⟨false, false, true⟩ hostW "j1" "/p" "/r" "4" rfl (by decide) (by decide) (by decide)
      rfl rfl rfl rfl rfl (by decide) (by decide)).2.1⟩⟩
